import Mathlib

/-!
Shallow embedding of the agent_sre repository's plan-execute-reflect
orchestration core, together with proofs about the claims of its
specification.

Embedded source files:
* `src/sre-agent/src/sre_agent/alert_processor.py` (AlertProcessor.process_alert)
* `src/sre-agent/src/sre_agent/graph/nodes/planning.py` (create_plan, determine_next_task)
* `src/sre-agent/src/sre_agent/graph/nodes/rag_lookup.py` (rag_lookup)
* `src/sre-agent/src/sre_agent/graph/nodes/reflection.py` (reflect)
* `src/sre-agent/src/sre_agent/graph/nodes/execution.py` (execute_task)
* `src/sre-agent/src/sre_agent/graph/nodes/recommendation.py` (generate_recommendation)
* `src/sre-agent/src/sre_agent/graph/workflow.py` (create_agent_graph routing)
* `src/sre-agent/src/sre_agent/services/rag_service.py` (RAGService.find_similar_alerts)
* `src/controllers/planning_agent/execution_orchestrator.py` (ExecutionOrchestrator.run)
* `src/orchestration_agent/planning/simple_agent.py` (SimplePlanningAgent.create_plan)

External collaborators (the LLM completion service, the vector store, the
orchestration engine's tool dispatch) are modelled as oracle parameters:
each call site receives an `Except String _` value describing either the
collaborator's answer or the exception it raised.  Python functions that can
raise are embedded as `Except String _`-valued functions; `Except.error e`
models an uncaught Python exception with message `e`.
-/

namespace PyStr

/-- Embeds Python's `str.strip()`: remove leading and trailing
whitespace.  (Defined by structural recursion so that proofs can
evaluate it; Lean's own `String.trim` is defined by well-founded
recursion, which the kernel cannot reduce.) -/
def strip (s : String) : String :=
  ⟨((s.data.dropWhile Char.isWhitespace).reverse.dropWhile Char.isWhitespace).reverse⟩

/-- Embeds Python's `str.split(sep)` for a one-character separator,
on character lists. -/
def splitChar (c : Char) : List Char → List (List Char)
  | [] => [[]]
  | a :: as =>
    if a = c then [] :: splitChar c as
    else
      match splitChar c as with
      | [] => [[a]]
      | l :: ls => (a :: l) :: ls

/-- Embeds Python's `str.split("\n")`. -/
def splitLines (s : String) : List String :=
  (splitChar '\n' s.data).map String.mk

/-- Embeds Python's `str.split(". ")`, on character lists. -/
def splitDotSpace : List Char → List (List Char)
  | [] => [[]]
  | '.' :: ' ' :: as => [] :: splitDotSpace as
  | a :: as =>
    match splitDotSpace as with
    | [] => [[a]]
    | l :: ls => (a :: l) :: ls

/-- Embeds Python's `str.startswith(pre)`. -/
def startsWith (pre s : String) : Bool := pre.data.isPrefixOf s.data

end PyStr

namespace SreAgent

/-- Embeds `AlertModel` (models/alert.py): id, type, summary, details.
The optional metadata map plays no role in any embedded control flow. -/
structure Alert where
  id : String
  type : String
  summary : String
  details : String
deriving Repr, DecidableEq

/-- Embeds one formatted similar-incident record as built by
`RAGService.find_similar_alerts` (rag_service.py lines 164-170). -/
structure Incident where
  id : String
  error : String
  solution : String
  similarity_score : ℚ
  metadata : List (String × String)
deriving Repr, DecidableEq

/-- Embeds the recommendation dictionary built by
`generate_recommendation` (recommendation.py lines 126-132) and by the
tier-3 fallback of `process_alert` (alert_processor.py lines 108-114). -/
structure Recommendation where
  alert_id : String
  alert_type : String
  recommendation_text : String
  similar_incidents : List Incident
  completed_tasks : List String
deriving Repr, DecidableEq

/-- Embeds `AgentState` (models/state.py).  `infra_context` is carried as an
opaque string: the infrastructure service is an external collaborator and
its output never influences the embedded control flow. -/
structure AgentState where
  alert : Alert
  plan : Option (List String)
  current_task : Option String
  completed_tasks : List String
  task_results : List String
  similar_incidents : List Incident
  reflections : List String
  recommendation : Option Recommendation
  infra_context : String
deriving Repr, DecidableEq

/-- Oracle for the external collaborators of one `process_alert` run.
`planLLM` is the completion result for the plan-creation call, `execLLM n`
(resp. `reflectLLM n`) the result of the n-th task-execution
(resp. reflection) completion call, `recLLM` the recommendation-synthesis
completion result, and `rag` the vector-store lookup outcome.
`Except.error e` means the collaborator raised an exception `e`. -/
structure Env where
  planLLM : Except String String
  execLLM : Nat → Except String String
  reflectLLM : Nat → Except String String
  recLLM : Except String String
  rag : Except String (List Incident)

/-- Embeds the numbered-list filter of `create_plan` (planning.py lines
68-71): a line contributes a task when it is non-blank, starts with a digit
and contains `". "`; the task is everything after the first `". "`,
stripped. -/
def parseTaskLine (line : String) : Option String :=
  let parts := (PyStr.splitDotSpace line.data).map String.mk
  if PyStr.strip line ≠ "" ∧ line.front.isDigit ∧ 2 ≤ parts.length then
    some (PyStr.strip (String.intercalate ". " (parts.drop 1)))
  else none

/-- Embeds the parsing loop of `create_plan` (planning.py lines 63-73):
the completion text is stripped, split into lines, and filtered. -/
def parseTasks (content : String) : List String :=
  (PyStr.splitLines (PyStr.strip content)).filterMap parseTaskLine

/-- Embeds `create_plan` (planning.py lines 12-93).  The completion call
`chain.invoke` at line 55 sits outside the `try` block beginning at line
63, so a completion failure propagates to the caller; the `except` branch
(single-step fallback plan) only guards the parsing/state update, which is
total, so it is unreachable here. -/
def create_plan (env : Env) (s : AgentState) : Except String AgentState :=
  match env.planLLM with
  | .error e => .error e
  | .ok content =>
    let tasks := parseTasks content
    .ok { s with
      plan := some tasks,
      current_task := if tasks.isEmpty then none else some "Check similar past incidents" }

/-- Embeds `determine_next_task` (planning.py lines 96-137).  The
state-dict accesses cannot raise, so the `except` fallback is
unreachable and the function is total. -/
def determine_next_task (s : AgentState) : String :=
  if s.plan.getD [] = [] ∨ (s.plan.getD []).length ≤ s.completed_tasks.length then
    "generate_recommendation"
  else if s.completed_tasks.length = 0 then
    "rag_lookup"
  else
    "execute_task"

/-- Embeds the text appended to `task_results` by `rag_lookup`
(rag_lookup.py lines 56-59). -/
def ragTopText (similar : List Incident) : String :=
  match similar with
  | [] => "None"
  | inc :: _ => inc.error.take 100 ++ "..."

/-- Embeds `rag_lookup` (rag_lookup.py lines 12-74).  Both RAG-service
failures are caught inside the node (lines 40-47), yielding an empty
incident list, so the node itself never raises. -/
def rag_lookup (env : Env) (s : AgentState) : AgentState :=
  let similar := match env.rag with | .ok l => l | .error _ => []
  { s with
    similar_incidents := similar,
    completed_tasks := s.completed_tasks ++ ["Check similar past incidents"],
    current_task := match s.plan with | some (t :: _) => some t | _ => none,
    task_results := s.task_results ++
      ["Found " ++ toString similar.length ++ " similar past incidents. Top incident: "
        ++ ragTopText similar] }

/-- Embeds `reflect` (reflection.py lines 12-79).  The completion call may
raise (it sits outside any `try`); on success the reflection text is
appended and the current task is appended to `completed_tasks` a second
time (line 78).  On every graph path that reaches `reflect`,
`current_task` has been set by the preceding node; `getD "None"` stands
for Python's `None` in the unreachable unset case. -/
def reflect (env : Env) (s : AgentState) : Except String AgentState :=
  match env.reflectLLM s.reflections.length with
  | .error e => .error e
  | .ok content =>
    .ok { s with
      reflections := s.reflections ++ [PyStr.strip content],
      completed_tasks := s.completed_tasks ++ [s.current_task.getD "None"] }

/-- Embeds `execute_task` (execution.py lines 12-115): the current task is
`plan[len(completed_tasks)]` when that index exists, else the state is
returned unchanged (also for a falsy empty task description); the
completion call may raise. -/
def execute_task (env : Env) (s : AgentState) : Except String AgentState :=
  match (s.plan.getD []).get? s.completed_tasks.length with
  | none => .ok s
  | some t =>
    if t = "" then .ok s
    else
      match env.execLLM s.task_results.length with
      | .error e => .error e
      | .ok content =>
        .ok { s with
          task_results := s.task_results ++ [PyStr.strip content],
          current_task := some t }

/-- Embeds `generate_recommendation` (recommendation.py lines 13-167).
The completion call `chain.invoke` at line 101 sits outside the `try`
blocks beginning at lines 115 and 119, so a completion failure propagates
to the caller; the two `except` fallbacks (error-describing
recommendations) only guard the content extraction and the state update,
which are total here, so they are unreachable. -/
def generate_recommendation (recLLM : Except String String) (s : AgentState) :
    Except String AgentState :=
  match recLLM with
  | .error e => .error e
  | .ok content =>
    .ok { s with
      recommendation := some {
        alert_id := s.alert.id,
        alert_type := s.alert.type,
        recommendation_text := PyStr.strip content,
        similar_incidents := s.similar_incidents,
        completed_tasks := s.completed_tasks } }

/-- Embeds the compiled LangGraph loop of `create_agent_graph`
(workflow.py lines 16-109): the `determine_next_task` node stores its
routing string in `current_task` (lines 54-56), the conditional edges
dispatch on that string (lines 67-74), `rag_lookup` and `execute_task`
always continue to `reflect` (lines 88-100) and `reflect` loops back to
`determine_next_task` (line 103).  `fuel` models LangGraph's recursion
limit; exhausting it models `GraphRecursionError`. -/
def workflowLoop (env : Env) : Nat → AgentState → Except String AgentState
  | 0, _ => .error "GraphRecursionError"
  | Nat.succ n, s =>
    let route := determine_next_task s
    let s1 := { s with current_task := some route }
    if route = "generate_recommendation" then
      generate_recommendation env.recLLM s1
    else if route = "rag_lookup" then
      match reflect env (rag_lookup env s1) with
      | .error e => .error e
      | .ok s2 => workflowLoop env n s2
    else
      match execute_task env s1 with
      | .error e => .error e
      | .ok s2 =>
        match reflect env s2 with
        | .error e => .error e
        | .ok s3 => workflowLoop env n s3

/-- Embeds one `agent_graph.ainvoke` (workflow.py): entry point
`create_plan`, then the routed loop. -/
def runWorkflow (env : Env) (fuel : Nat) (s : AgentState) : Except String AgentState :=
  match create_plan env s with
  | .error e => .error e
  | .ok s1 => workflowLoop env fuel s1

/-- Embeds the initial state built by `process_alert`
(alert_processor.py lines 64-74). -/
def initialState (alert : Alert) : AgentState :=
  { alert := alert, plan := none, current_task := none, completed_tasks := [],
    task_results := [], similar_incidents := [], reflections := [],
    recommendation := none, infra_context := "" }

/-- Embeds the tier-3 static fallback recommendation of `process_alert`
(alert_processor.py lines 108-114). -/
def tier3Rec (alert : Alert) : Recommendation :=
  { alert_id := alert.id,
    alert_type := alert.type,
    recommendation_text :=
      "Unable to generate a detailed recommendation. Please check the logs for more information.",
    similar_incidents := [],
    completed_tasks := [] }

/-- Embeds the tier-2 state built by `process_alert` before the direct
`generate_recommendation` call (alert_processor.py lines 90-97). -/
def tier2State (env : Env) (alert : Alert) : AgentState :=
  let ragResult := rag_lookup env (initialState alert)
  { ragResult with
    completed_tasks := ragResult.completed_tasks ++ ["Execute task"],
    task_results := ragResult.task_results ++ ["Task execution result"] }

/-- Embeds tiers 2 and 3 of `process_alert` (alert_processor.py lines
88-114): the direct pipeline's exceptions are caught, and when it yields
no recommendation the static tier-3 dictionary is returned. -/
def tier2Or3 (env : Env) (alert : Alert) : Recommendation :=
  match generate_recommendation env.recLLM (tier2State env alert) with
  | .ok st =>
    match st.recommendation with
    | some r => r
    | none => tier3Rec alert
  | .error _ => tier3Rec alert

/-- Embeds `AlertProcessor.process_alert` (alert_processor.py lines
38-114): run the workflow (tier 1) catching every exception; if it
produced a recommendation return it, otherwise fall back to the direct
pipeline (tier 2) and finally to the static dictionary (tier 3). -/
def process_alert (env : Env) (fuel : Nat) (alert : Alert) : Recommendation :=
  match runWorkflow env fuel (initialState alert) with
  | .ok finalState =>
    match finalState.recommendation with
    | some r => r
    | none => tier2Or3 env alert
  | .error _ => tier2Or3 env alert

end SreAgent

namespace Orchestration

/-- Embeds `ExecutionContext` (constructed in execution_orchestrator.py
lines 80-86; its declaring module `interfaces.py` is an external
collaborator of the embedded loop). -/
structure ExecutionContext where
  alert : String
  context : String
  accumulated_knowledge : String
  step_id : String
  step_description : String
deriving Repr, DecidableEq

/-- Embeds the dictionary returned by
`OrchestratorCore.execute_with_context` (orchestrator_core.py lines
56-81) as consumed by the execution loop: the orchestrator output (which
may be falsy, giving tool name `unknown`) and the tool response used for
summarization. -/
structure OrchestratorResult where
  orchestrator_tool : Option String
  tool_response : String
deriving Repr, DecidableEq

/-- Embeds `PlanStepSchema` as consumed by the execution orchestrator:
only the description is read by the loop. -/
structure PlanStepSchema where
  description : String
deriving Repr, DecidableEq

/-- Embeds `SimplePlanSchema` as consumed by `ExecutionOrchestrator.run`:
alert, context, ordered steps and the initial accumulated knowledge. -/
structure SimplePlanSchema where
  alert : String
  context : String
  steps : List PlanStepSchema
  accumulated_knowledge : String := ""
deriving Repr, DecidableEq

/-- Embeds `ExecutionOrchestratorInputSchema`
(execution_orchestrator.py lines 12-15). -/
structure ExecutionOrchestratorInputSchema where
  plan : SimplePlanSchema
deriving Repr, DecidableEq

/-- Embeds `StepExecutionResult` (execution_orchestrator.py lines 18-26).
The opaque `full_result` payload is elided: no embedded control flow
reads it. -/
structure StepExecutionResult where
  step_index : Nat
  step_description : String
  status : String
  tool_used : String
  result_summary : String
deriving Repr, DecidableEq

/-- Embeds `ExecutionOrchestratorOutputSchema`
(execution_orchestrator.py lines 29-35). -/
structure ExecutionOrchestratorOutputSchema where
  executed_steps : List StepExecutionResult
  final_summary : String
  success : Bool
  accumulated_knowledge : String
deriving Repr, DecidableEq

/-- Modelled from the spec: `ContextAccumulator.summarize_step_result`
(its module `context_utils.py` is absent from the source tree; spec §4.5
describes a deterministic transform of step description, tool name and a
truncated response, capped at a bounded length). -/
def summarize_step_result (step_description : String) (tool_response : String)
    (tool_name : String) : String :=
  "[" ++ tool_name ++ "] " ++ step_description ++ ": " ++ tool_response.take 500

/-- Modelled from the spec: `ContextAccumulator.merge_contexts` (its
module `context_utils.py` is absent from the source tree; spec §4.5:
"merge is concatenation with a separating marker"). -/
def merge_contexts (existing : String) (new : String) : String :=
  if existing = "" then new else existing ++ "\n\n---\n\n" ++ new

/-- Embeds the failed-step summary text of `ExecutionOrchestrator.run`
(execution_orchestrator.py line 139). -/
def failedSummary (e : String) : String := "Step failed with error: " ++ e

/-- Carrier of the execution loop's mutable locals
(`executed_steps`, `accumulated_knowledge`, `success`). -/
structure RunState where
  executed : List StepExecutionResult
  acc : String
  success : Bool
deriving Repr, DecidableEq

/-- Embeds the `ExecutionContext` construction of
`ExecutionOrchestrator.run` (execution_orchestrator.py lines 80-86). -/
def stepContext (alert context acc : String) (i : Nat) (step : PlanStepSchema) :
    ExecutionContext :=
  { alert := alert, context := context, accumulated_knowledge := acc,
    step_id := "step_" ++ toString (i + 1), step_description := step.description }

/-- Embeds the failed-step record of `ExecutionOrchestrator.run`
(execution_orchestrator.py lines 134-141). -/
def failedResult (i : Nat) (step : PlanStepSchema) (e : String) : StepExecutionResult :=
  { step_index := i, step_description := step.description,
    status := "failed", tool_used := "none",
    result_summary := failedSummary e }

/-- Embeds the completed-step record of `ExecutionOrchestrator.run`
(execution_orchestrator.py lines 111-118), including the 200-character
truncation of the summary. -/
def completedResult (i : Nat) (step : PlanStepSchema) (tool_name step_summary : String) :
    StepExecutionResult :=
  { step_index := i, step_description := step.description,
    status := "completed", tool_used := tool_name,
    result_summary :=
      if 200 < step_summary.length then step_summary.take 200 ++ "..." else step_summary }

/-- Embeds the step loop of `ExecutionOrchestrator.run`
(execution_orchestrator.py lines 75-145).  `oracle` stands for
`orchestrator_core.execute_with_context`; `Except.error e` models the
call raising exception `e`.  A failure records a failed step result and
breaks; a completed step whose tool is `final_answer` breaks after being
recorded. -/
def runSteps (oracle : ExecutionContext → Except String OrchestratorResult)
    (alert context : String) :
    List PlanStepSchema → Nat → String → RunState
  | [], _, acc => { executed := [], acc := acc, success := true }
  | step :: rest, i, acc =>
    match oracle (stepContext alert context acc i step) with
    | .error e =>
      { executed := [failedResult i step e], acc := acc, success := false }
    | .ok result =>
      let tool_name := result.orchestrator_tool.getD "unknown"
      let step_summary := summarize_step_result step.description result.tool_response tool_name
      let res := completedResult i step tool_name step_summary
      if tool_name = "final_answer" then
        { executed := [res], acc := merge_contexts acc step_summary, success := true }
      else
        let t := runSteps oracle alert context rest (i + 1) (merge_contexts acc step_summary)
        { executed := res :: t.executed, acc := t.acc, success := t.success }

/-- Embeds the per-step lines of `_generate_execution_summary`
(execution_orchestrator.py lines 183-187). -/
def stepDetailLine (r : StepExecutionResult) : String :=
  "\n" ++ toString (r.step_index + 1) ++ ". "
    ++ (if r.status = "completed" then "✅" else "❌") ++ " " ++ r.step_description
    ++ "\n   → Tool Used: " ++ r.tool_used
    ++ "\n   → Result: " ++ r.result_summary

/-- Embeds `ExecutionOrchestrator._generate_execution_summary`
(execution_orchestrator.py lines 157-192).  Note the Key Findings section
reads `plan.accumulated_knowledge`, the plan's initial knowledge. -/
def generateExecutionSummary (plan : SimplePlanSchema)
    (executed_steps : List StepExecutionResult) (success : Bool) : String :=
  let completed := executed_steps.filter (fun s => s.status = "completed")
  let failed := executed_steps.filter (fun s => s.status = "failed")
  let base :=
    "# Plan Execution Summary\n\n## Original Alert\n" ++ plan.alert
    ++ "\n\n## Context\n" ++ plan.context
    ++ "\n\n## Execution Results\n- **Status**: "
    ++ (if success then "✅ Success" else "❌ Failed")
    ++ "\n- **Steps Completed**: " ++ toString completed.length ++ "/"
    ++ toString plan.steps.length
    ++ "\n- **Steps Failed**: " ++ toString failed.length
    ++ "\n\n## Step Details"
  let withSteps := executed_steps.foldl (fun acc r => acc ++ stepDetailLine r) base
  if plan.accumulated_knowledge ≠ "" then
    withSteps ++ "\n\n## Key Findings\n" ++ plan.accumulated_knowledge
  else withSteps

/-- Embeds `ExecutionOrchestrator.run` (execution_orchestrator.py lines
57-155). -/
def run (oracle : ExecutionContext → Except String OrchestratorResult)
    (params : ExecutionOrchestratorInputSchema) : ExecutionOrchestratorOutputSchema :=
  let plan := params.plan
  let t := runSteps oracle plan.alert plan.context plan.steps 0 plan.accumulated_knowledge
  { executed_steps := t.executed,
    final_summary := generateExecutionSummary plan t.executed t.success,
    success := t.success,
    accumulated_knowledge := t.acc }

end Orchestration

namespace SimplePlanning

/-- Embeds one parsed line of `SimplePlanningAgent.create_plan`
(simple_agent.py lines 79-91): the stripped line must be non-empty and
start with a digit or a dash; the description is everything after the
first dot if the line has one, else the line without its leading dash,
else the line itself; blank descriptions are dropped. -/
def parseStepLine (raw : String) : Option String :=
  let line := PyStr.strip raw
  if line ≠ "" ∧ (line.front.isDigit ∨ PyStr.startsWith "-" line) then
    let parts := (PyStr.splitChar '.' line.data).map String.mk
    let step_desc :=
      if 2 ≤ parts.length then PyStr.strip (String.intercalate "." (parts.drop 1))
      else if PyStr.startsWith "-" line then PyStr.strip (line.drop 1)
      else PyStr.strip line
    if step_desc ≠ "" then some step_desc else none
  else none

/-- Embeds the parsing loop of `SimplePlanningAgent.create_plan`
(simple_agent.py lines 76-91): the completion text is stripped, split
into lines and filtered. -/
def parseSteps (content : String) : List String :=
  (PyStr.splitLines (PyStr.strip content)).filterMap parseStepLine

/-- Embeds the fixed default step descriptions of
`SimplePlanningAgent.create_plan` (simple_agent.py lines 95-99 and
115-119; the two lists are identical). -/
def defaultStepDescriptions : List String :=
  ["Investigate the alert and gather system information",
   "Analyze findings to identify potential root causes",
   "Implement appropriate resolution or escalation"]

/-- Embeds `SimplePlanningAgent.create_plan` (simple_agent.py lines
35-127): `llm` is the completion-service outcome; a raised completion
call falls back to the default 3-step plan, and so does a parse that
yields zero steps. -/
def create_plan (llm : Except String String) (alert context : String) :
    Orchestration.SimplePlanSchema :=
  match llm with
  | .error _ =>
    { alert := alert, context := context,
      steps := defaultStepDescriptions.map (fun d => { description := d }),
      accumulated_knowledge := "" }
  | .ok content =>
    let descs := parseSteps content
    let descs := if descs.isEmpty then defaultStepDescriptions else descs
    { alert := alert, context := context,
      steps := descs.map (fun d => { description := d }),
      accumulated_knowledge := "" }

end SimplePlanning

namespace RagService

/-- Embeds the first-query slice of the vector store's response as read
by `RAGService.find_similar_alerts` (rag_service.py lines 152-159):
`ids`, `documents`, `metadatas` and cosine `distances`, machine floats
modelled as rationals. -/
structure QueryResult where
  ids : List String
  documents : List String
  metadatas : List (List (String × String))
  distances : List ℚ
deriving Repr, DecidableEq

/-- Embeds Python's `round` to the nearest integer (banker's rounding:
ties go to the even integer). -/
def roundHalfEven (q : ℚ) : ℤ :=
  if q - ⌊q⌋ < 1 / 2 then ⌊q⌋
  else if 1 / 2 < q - ⌊q⌋ then ⌊q⌋ + 1
  else if ⌊q⌋ % 2 = 0 then ⌊q⌋ else ⌊q⌋ + 1

/-- Embeds Python's `round(x, 2)` (rag_service.py line 162). -/
def round2 (q : ℚ) : ℚ := (roundHalfEven (q * 100) : ℚ) / 100

/-- Embeds the formatting of one result row by
`RAGService.find_similar_alerts` (rag_service.py lines 156-170),
including the out-of-range defaults and the similarity score
`round(1.0 - distance, 2)`. -/
def formatIncident (q : QueryResult) (i : Nat) (doc_id : String) : SreAgent.Incident :=
  let document := q.documents.getD i ""
  let metadata := q.metadatas.getD i []
  let distance := q.distances.getD i 1
  { id := doc_id,
    error := document,
    solution := ((metadata.lookup "solution").getD ""),
    similarity_score := round2 (1 - distance),
    metadata := metadata.filter (fun kv => kv.1 ≠ "solution") }

/-- Embeds the result-formatting path of `RAGService.find_similar_alerts`
(rag_service.py lines 152-178): with a non-empty id list every row is
formatted in order; otherwise the empty list is returned. -/
def find_similar_alerts (q : QueryResult) : List SreAgent.Incident :=
  if q.ids.isEmpty then []
  else q.ids.enum.map (fun p => formatIncident q p.1 p.2)

end RagService

namespace Fixtures

open SreAgent Orchestration RagService

/-- Fixture: the sample alert of spec §8. -/
def alert0 : Alert :=
  { id := "a1", type := "PodCrashLoop", summary := "pod X crashlooping", details := "OOMKilled" }

/-- Fixture: an environment in which every collaborator succeeds but the
completion service returns empty text on every call. -/
def envEmptyOk : Env :=
  { planLLM := .ok "", execLLM := fun _ => .ok "", reflectLLM := fun _ => .ok "",
    recLLM := .ok "", rag := .ok [] }

/-- Fixture: an environment in which every completion-service call raises
`ServiceError` while the vector store succeeds with no matches. -/
def envAllFail : Env :=
  { planLLM := .error "ServiceError", execLLM := fun _ => .error "ServiceError",
    reflectLLM := fun _ => .error "ServiceError", recLLM := .error "ServiceError",
    rag := .ok [] }

/-- Fixture: an environment in which every collaborator succeeds with
non-empty text. -/
def envOk : Env :=
  { planLLM := .ok "1. Check similar past incidents\n2. t1\n3. t2",
    execLLM := fun n => .ok ("exec" ++ toString n),
    reflectLLM := fun n => .ok ("refl" ++ toString n),
    recLLM := .ok "final recommendation", rag := .ok [] }

/-- Fixture: the workflow state right after plan creation for a 3-step
plan, about to execute its first step. -/
def statePlan3 : AgentState :=
  { alert := alert0, plan := some ["Check similar past incidents", "t1", "t2"],
    current_task := some "rag_lookup", completed_tasks := [], task_results := [],
    similar_incidents := [], reflections := [], recommendation := none, infra_context := "" }

/-- Fixture: a 3-step investigation plan for the execution orchestrator. -/
def plan0 : SimplePlanSchema :=
  { alert := "A", context := "C",
    steps := [{ description := "s1" }, { description := "s2" }, { description := "s3" }],
    accumulated_knowledge := "" }

/-- Fixture: orchestrator input wrapping `plan0`. -/
def params0 : ExecutionOrchestratorInputSchema := { plan := plan0 }

/-- Fixture: an execution oracle that raises `boom` on the second step
and otherwise completes with the web-search tool. -/
def oracleFail1 : ExecutionContext → Except String OrchestratorResult := fun ctx =>
  if ctx.step_id = "step_2" then .error "boom"
  else .ok { orchestrator_tool := some "web-search", tool_response := "ok" }

/-- Fixture: an execution oracle that always selects the `final_answer`
tool. -/
def oracleFinal : ExecutionContext → Except String OrchestratorResult := fun _ =>
  .ok { orchestrator_tool := some "final_answer", tool_response := "done" }

/-- Fixture: an environment whose plan completion succeeds with prose
containing no numbered steps, every other completion failing. -/
def envOkNoSteps : Env :=
  { envAllFail with planLLM := .ok "The service returned prose with no numbered steps" }

/-- Fixture: a vector-store response with one match at cosine distance
0.123. -/
def q0 : QueryResult :=
  { ids := ["inc-1"], documents := ["disk full"],
    metadatas := [[("solution", "clean disk")]], distances := [123 / 1000] }

end Fixtures

namespace Orchestration

/-- Helper: structural facts about the execution loop.  Every recorded
result sits at its plan index and carries one of the two terminal
statuses; a failed result is the last one recorded, with the loop's
success flag cleared, tool `none` and the error text in its summary; a
`final_answer` result is the last one recorded. -/
theorem runSteps_get_spec (oracle : ExecutionContext → Except String OrchestratorResult)
    (alert context : String) :
    ∀ (steps : List PlanStepSchema) (i : Nat) (acc : String) (j : Nat)
      (r : StepExecutionResult),
      (runSteps oracle alert context steps i acc).executed.get? j = some r →
      r.step_index = i + j ∧
      (r.status = "completed" ∨ r.status = "failed") ∧
      (r.status = "failed" →
        j + 1 = (runSteps oracle alert context steps i acc).executed.length ∧
        (runSteps oracle alert context steps i acc).success = false ∧
        r.tool_used = "none" ∧ ∃ e, r.result_summary = failedSummary e) ∧
      (r.tool_used = "final_answer" →
        j + 1 = (runSteps oracle alert context steps i acc).executed.length) := by
  intro steps
  induction steps with
  | nil =>
    intro i acc j r h
    simp [runSteps] at h
  | cons step rest ih =>
    intro i acc j r h
    cases hor : oracle (stepContext alert context acc i step) with
    | error e =>
      simp only [runSteps, hor] at h ⊢
      cases j with
      | zero =>
        simp only [List.get?_cons_zero, Option.some.injEq] at h
        subst h
        refine ⟨?_, Or.inr rfl, ?_, ?_⟩
        · simp [failedResult]
        · intro _
          exact ⟨rfl, trivial, rfl, ⟨e, rfl⟩⟩
        · intro _
          rfl
      | succ j' =>
        simp at h
    | ok result =>
      by_cases hfa : result.orchestrator_tool.getD "unknown" = "final_answer"
      · simp only [runSteps, hor, hfa, if_true, eq_self_iff_true] at h ⊢
        cases j with
        | zero =>
          simp only [List.get?_cons_zero, Option.some.injEq] at h
          subst h
          refine ⟨?_, Or.inl rfl, ?_, ?_⟩
          · simp [completedResult]
          · intro hc
            simp [completedResult] at hc
          · intro _
            rfl
        | succ j' =>
          simp at h
      · simp only [runSteps, hor, if_neg hfa] at h ⊢
        cases j with
        | zero =>
          simp only [List.get?_cons_zero, Option.some.injEq] at h
          subst h
          refine ⟨?_, Or.inl rfl, ?_, ?_⟩
          · simp [completedResult]
          · intro hc
            simp [completedResult] at hc
          · intro hc
            simp only [completedResult] at hc
            exact absurd hc hfa
        | succ j' =>
          simp only [List.get?_cons_succ] at h
          obtain ⟨hidx, hst, hfail, hfin⟩ := ih (i + 1)
            (merge_contexts acc (summarize_step_result step.description result.tool_response
              (result.orchestrator_tool.getD "unknown"))) j' r h
          refine ⟨by omega, hst, ?_, ?_⟩
          · intro hc
            obtain ⟨hlen, hsucc, htool, he⟩ := hfail hc
            exact ⟨by simp [← hlen], by simp [hsucc], htool, he⟩
          · intro hc
            have hl := hfin hc
            simp [← hl]

/-- Helper: merging never discards the existing knowledge; the merged
text extends it on the right. -/
theorem merge_contexts_extends (existing new : String) :
    ∃ t, merge_contexts existing new = existing ++ t := by
  by_cases h : existing = ""
  · subst h
    exact ⟨new, rfl⟩
  · refine ⟨"\n\n---\n\n" ++ new, ?_⟩
    unfold merge_contexts
    rw [if_neg h]
    exact String.append_assoc existing "\n\n---\n\n" new

/-- Helper: across any number of loop iterations the accumulated
knowledge extends its starting value on the right. -/
theorem runSteps_acc_extends (oracle : ExecutionContext → Except String OrchestratorResult)
    (alert context : String) :
    ∀ (steps : List PlanStepSchema) (i : Nat) (acc : String),
      ∃ t, (runSteps oracle alert context steps i acc).acc = acc ++ t := by
  intro steps
  induction steps with
  | nil =>
    intro i acc
    exact ⟨"", by simp [runSteps]⟩
  | cons step rest ih =>
    intro i acc
    cases hor : oracle (stepContext alert context acc i step) with
    | error e =>
      exact ⟨"", by simp [runSteps, hor]⟩
    | ok result =>
      by_cases hfa : result.orchestrator_tool.getD "unknown" = "final_answer"
      · obtain ⟨t, ht⟩ := merge_contexts_extends acc
          (summarize_step_result step.description result.tool_response
            (result.orchestrator_tool.getD "unknown"))
        refine ⟨t, ?_⟩
        simp only [runSteps, hor]
        rw [if_pos hfa]
        exact ht
      · obtain ⟨t1, ht1⟩ := merge_contexts_extends acc
          (summarize_step_result step.description result.tool_response
            (result.orchestrator_tool.getD "unknown"))
        obtain ⟨t2, ht2⟩ := ih (i + 1)
          (merge_contexts acc (summarize_step_result step.description result.tool_response
            (result.orchestrator_tool.getD "unknown")))
        refine ⟨t1 ++ t2, ?_⟩
        simp only [runSteps, hor]
        rw [if_neg hfa]
        show (runSteps oracle alert context rest (i + 1)
          (merge_contexts acc (summarize_step_result step.description result.tool_response
            (result.orchestrator_tool.getD "unknown")))).acc = acc ++ (t1 ++ t2)
        rw [ht2, ht1, String.append_assoc]

/-- Helper: the loop records at most one result per plan step. -/
theorem runSteps_length_le (oracle : ExecutionContext → Except String OrchestratorResult)
    (alert context : String) :
    ∀ (steps : List PlanStepSchema) (i : Nat) (acc : String),
      (runSteps oracle alert context steps i acc).executed.length ≤ steps.length := by
  intro steps
  induction steps with
  | nil => intro i acc; simp [runSteps]
  | cons step rest ih =>
    intro i acc
    cases hor : oracle (stepContext alert context acc i step) with
    | error e => simp [runSteps, hor]
    | ok result =>
      by_cases hfa : result.orchestrator_tool.getD "unknown" = "final_answer"
      · simp [runSteps, hor, hfa]
      · simp only [runSteps, hor, if_neg hfa, List.length_cons]
        have := ih (i + 1)
          (merge_contexts acc (summarize_step_result step.description result.tool_response
            (result.orchestrator_tool.getD "unknown")))
        simpa using Nat.succ_le_succ this

end Orchestration

namespace SreAgent

/-- Helper: the tier-2/tier-3 fallback either returns the recommendation
produced by the direct `generate_recommendation` call or the static
tier-3 dictionary. -/
theorem tier2Or3_cases (env : Env) (alert : Alert) :
    (∃ st, generate_recommendation env.recLLM (tier2State env alert) = .ok st ∧
      st.recommendation = some (tier2Or3 env alert)) ∨
    tier2Or3 env alert = tier3Rec alert := by
  cases h : generate_recommendation env.recLLM (tier2State env alert) with
  | error e =>
    right
    simp [tier2Or3, h]
  | ok st =>
    cases hrec : st.recommendation with
    | none =>
      right
      simp [tier2Or3, h, hrec]
    | some r =>
      left
      refine ⟨st, rfl, ?_⟩
      rw [hrec]
      have ht : tier2Or3 env alert = r := by simp [tier2Or3, h, hrec]
      rw [ht]

end SreAgent

namespace RagService

/-- Helper: banker's rounding stays between any integer bounds that
enclose its argument. -/
theorem roundHalfEven_bounds {q : ℚ} {a b : ℤ} (ha : (a : ℚ) ≤ q) (hb : q ≤ (b : ℚ)) :
    a ≤ roundHalfEven q ∧ roundHalfEven q ≤ b := by
  have hfa : a ≤ ⌊q⌋ := Int.le_floor.mpr ha
  have hfq : (⌊q⌋ : ℚ) ≤ q := Int.floor_le q
  have hfb : ⌊q⌋ ≤ b := by exact_mod_cast le_trans hfq hb
  unfold roundHalfEven
  split_ifs with h1 h2 h3
  · exact ⟨hfa, hfb⟩
  · have hlt : (⌊q⌋ : ℚ) < q := by linarith
    have hb' : ⌊q⌋ < b := by exact_mod_cast lt_of_lt_of_le hlt hb
    exact ⟨by omega, by omega⟩
  · exact ⟨hfa, hfb⟩
  · have hge : (1 : ℚ) / 2 ≤ q - ⌊q⌋ := not_lt.mp h1
    have hlt : (⌊q⌋ : ℚ) < q := by linarith
    have hb' : ⌊q⌋ < b := by exact_mod_cast lt_of_lt_of_le hlt hb
    exact ⟨by omega, by omega⟩

/-- Helper: rounding to two decimals keeps values of the unit interval
inside the unit interval. -/
theorem round2_bounds {x : ℚ} (h0 : 0 ≤ x) (h1 : x ≤ 1) :
    0 ≤ round2 x ∧ round2 x ≤ 1 := by
  unfold round2
  have hb := @roundHalfEven_bounds (x * 100) 0 100
    (by push_cast; nlinarith) (by push_cast; nlinarith)
  constructor
  · apply div_nonneg _ (by norm_num)
    exact_mod_cast hb.1
  · rw [div_le_one (by norm_num)]
    exact_mod_cast hb.2

end RagService

namespace SreAgent

/-- C1 (amended): for every alert and every collaborator behaviour,
`process_alert` returns a Recommendation and never raises: the result is
the tier-1 workflow's recommendation, or the tier-2 direct pipeline's
recommendation, or the tier-3 static dictionary (whose text is
non-empty); every tier-1/tier-2 failure is caught.  The original claim's
"recommendation_text is non-empty" does not hold in the first two cases:
the completion text is passed through verbatim, even when empty. -/
theorem process_alert_total_and_tiered (env : Env) (fuel : Nat) (alert : Alert) :
    (∃ s, runWorkflow env fuel (initialState alert) = .ok s ∧
      s.recommendation = some (process_alert env fuel alert)) ∨
    (∃ st, generate_recommendation env.recLLM (tier2State env alert) = .ok st ∧
      st.recommendation = some (process_alert env fuel alert)) ∨
    (process_alert env fuel alert = tier3Rec alert ∧
      (tier3Rec alert).recommendation_text ≠ "") := by
  have htext : (tier3Rec alert).recommendation_text ≠ "" := by
    show ("Unable to generate a detailed recommendation. Please check the logs for more information."
      : String) ≠ ""
    decide
  cases h1 : runWorkflow env fuel (initialState alert) with
  | ok s =>
    cases h2 : s.recommendation with
    | some r =>
      left
      refine ⟨s, rfl, ?_⟩
      rw [h2]
      have hp : process_alert env fuel alert = r := by simp [process_alert, h1, h2]
      rw [hp]
    | none =>
      have hp : process_alert env fuel alert = tier2Or3 env alert := by
        simp [process_alert, h1, h2]
      rcases tier2Or3_cases env alert with ⟨st, hgen, hrec⟩ | h3
      · right; left
        exact ⟨st, hgen, by rw [hp]; exact hrec⟩
      · right; right
        exact ⟨by rw [hp, h3], htext⟩
  | error e =>
    have hp : process_alert env fuel alert = tier2Or3 env alert := by
      simp [process_alert, h1]
    rcases tier2Or3_cases env alert with ⟨st, hgen, hrec⟩ | h3
    · right; left
      exact ⟨st, hgen, by rw [hp]; exact hrec⟩
    · right; right
      exact ⟨by rw [hp, h3], htext⟩

/-- C1 (counterexample): with every collaborator succeeding but the
completion service returning empty text, `process_alert` returns a
Recommendation whose `recommendation_text` is empty, refuting the
claimed non-emptiness for all alert inputs. -/
theorem process_alert_empty_text_counterexample :
    (process_alert Fixtures.envEmptyOk 25 Fixtures.alert0).recommendation_text = "" := by
  decide

/-- C2 (amended): when the plan-creation and recommendation-synthesis
completion calls raise (as they do when every completion call fails),
`process_alert` returns exactly the tier-3 static recommendation, whose
`recommendation_text` is the longer string "Unable to generate a
detailed recommendation. Please check the logs for more information."
(beginning with the claimed text) and whose incident and task lists are
empty. -/
theorem process_alert_all_completions_fail (env : Env) (fuel : Nat) (alert : Alert)
    (hplan : ∃ e, env.planLLM = Except.error e)
    (hrec : ∃ e, env.recLLM = Except.error e) :
    process_alert env fuel alert = tier3Rec alert ∧
    (tier3Rec alert).recommendation_text =
      "Unable to generate a detailed recommendation. Please check the logs for more information." ∧
    (tier3Rec alert).similar_incidents = [] ∧
    (tier3Rec alert).completed_tasks = [] ∧
    PyStr.startsWith "Unable to generate a detailed recommendation"
      (tier3Rec alert).recommendation_text = true := by
  obtain ⟨e1, he1⟩ := hplan
  obtain ⟨e2, he2⟩ := hrec
  have hpre : PyStr.startsWith "Unable to generate a detailed recommendation"
      (tier3Rec alert).recommendation_text = true := by
    show PyStr.startsWith "Unable to generate a detailed recommendation"
      "Unable to generate a detailed recommendation. Please check the logs for more information."
      = true
    decide
  refine ⟨?_, rfl, rfl, rfl, hpre⟩
  simp [process_alert, runWorkflow, create_plan, he1, tier2Or3, generate_recommendation, he2]

/-- C2 (witness): the amended theorem applied to the concrete
all-failing environment and the sample alert. -/
theorem process_alert_all_completions_fail_witness :
    process_alert Fixtures.envAllFail 7 Fixtures.alert0 = tier3Rec Fixtures.alert0 :=
  (process_alert_all_completions_fail Fixtures.envAllFail 7 Fixtures.alert0
    ⟨"ServiceError", rfl⟩ ⟨"ServiceError", rfl⟩).1

/-- C2 (counterexample): the tier-3 text is not the exact string the
claim states; it carries a trailing sentence. -/
theorem tier3_text_differs_counterexample :
    (process_alert Fixtures.envAllFail 7 Fixtures.alert0).recommendation_text
      ≠ "Unable to generate a detailed recommendation" := by
  decide

/-- C3 (code evaluation): executing the first plan step of a 3-step plan
(`rag_lookup` followed by `reflect`) appends TWO entries to
`completed_tasks` — `rag_lookup` appends "Check similar past incidents"
and `reflect` appends the current task again — so `determine_next_task`
then routes to `execute_task` with next index 2, skipping the plan step
at index 1 ("t1"): the next task fetched is "t2". -/
theorem completed_tasks_double_count_eval :
    (reflect Fixtures.envOk (rag_lookup Fixtures.envOk Fixtures.statePlan3)).toOption.map
        (fun s => (s.completed_tasks, determine_next_task s,
          (s.plan.getD []).get? s.completed_tasks.length))
      = some (["Check similar past incidents", "Check similar past incidents"],
          "execute_task", some "t2") := by
  decide

/-- C4 (code evaluation): when the completion service raises,
`generate_recommendation` propagates the exception to its caller instead
of returning an error-describing Recommendation: the `chain.invoke` call
(recommendation.py line 101) sits outside both `try` blocks. -/
theorem generate_recommendation_propagates_error_eval :
    generate_recommendation (Except.error "ServiceError") (initialState Fixtures.alert0)
      = Except.error "ServiceError" := rfl

/-- C5 (counterexample): the sre-agent graph's `create_plan` does not
fall back to a fixed default 3-step plan: a failing completion call
propagates as an exception, and a completion answer that parses to zero
steps yields an empty plan. -/
theorem create_plan_no_default_fallback_counterexample :
    create_plan Fixtures.envAllFail (initialState Fixtures.alert0)
        = Except.error "ServiceError" ∧
      (create_plan Fixtures.envOkNoSteps (initialState Fixtures.alert0)).toOption.map
        (fun s => s.plan) = some (some []) :=
  ⟨rfl, by decide⟩

/-- C9: `determine_next_task` returns "generate_recommendation" iff the
plan is absent/empty or the completed-task count reaches the plan
length; otherwise "rag_lookup" iff the next unprocessed index (the
completed-task count) is 0; otherwise "execute_task". -/
theorem determine_next_task_routing (s : AgentState) :
    (determine_next_task s = "generate_recommendation" ↔
      (s.plan.getD [] = [] ∨ (s.plan.getD []).length ≤ s.completed_tasks.length)) ∧
    (determine_next_task s = "rag_lookup" ↔
      (¬(s.plan.getD [] = [] ∨ (s.plan.getD []).length ≤ s.completed_tasks.length) ∧
        s.completed_tasks.length = 0)) ∧
    (determine_next_task s = "execute_task" ↔
      (¬(s.plan.getD [] = [] ∨ (s.plan.getD []).length ≤ s.completed_tasks.length) ∧
        s.completed_tasks.length ≠ 0)) := by
  unfold determine_next_task
  by_cases h1 : s.plan.getD [] = [] ∨ (s.plan.getD []).length ≤ s.completed_tasks.length
  · rw [if_pos h1]
    exact ⟨iff_of_true rfl h1,
      iff_of_false (by decide) (fun hc => hc.1 h1),
      iff_of_false (by decide) (fun hc => hc.1 h1)⟩
  · rw [if_neg h1]
    by_cases h2 : s.completed_tasks.length = 0
    · rw [if_pos h2]
      exact ⟨iff_of_false (by decide) h1,
        iff_of_true rfl ⟨h1, h2⟩,
        iff_of_false (by decide) (fun hc => hc.2 h2)⟩
    · rw [if_neg h2]
      exact ⟨iff_of_false (by decide) h1,
        iff_of_false (by decide) (fun hc => h2 hc.2),
        iff_of_true rfl ⟨h1, h2⟩⟩

end SreAgent

namespace SimplePlanning

/-- C5 (amended): for `SimplePlanningAgent.create_plan`
(orchestration_agent), a failing completion call, and likewise a
completion answer whose parse yields zero steps, produce the fixed
default 3-step plan, whose step 0 is the default
information-gathering/retrieval step; the sre-agent graph's
`create_plan` has no such fallback (see the counterexample). -/
theorem create_plan_default_fallback (alert context e : String) :
    ((create_plan (.error e) alert context).steps.map (fun st => st.description)
      = defaultStepDescriptions) ∧
    defaultStepDescriptions.length = 3 ∧
    defaultStepDescriptions.get? 0 = some "Investigate the alert and gather system information" ∧
    ∀ content, parseSteps content = [] →
      (create_plan (.ok content) alert context).steps.map (fun st => st.description)
        = defaultStepDescriptions := by
  refine ⟨rfl, rfl, rfl, ?_⟩
  intro content h
  simp only [create_plan, h]
  rfl

/-- C5 (witness): the amended theorem applied to completion output that
parses to zero steps. -/
theorem create_plan_default_fallback_witness :
    (create_plan (.ok "no steps here") "a" "c").steps.map (fun st => st.description)
      = defaultStepDescriptions :=
  (create_plan_default_fallback "a" "c" "x").2.2.2 "no steps here" (by decide)

end SimplePlanning

namespace Orchestration

/-- C6: if the step at index k of a run fails, its result is recorded
with status "failed" and the error text in `result_summary`, it is the
last recorded step (no step with a greater index is attempted), every
earlier recorded step is "completed", the run's success flag is cleared,
and the run still produces its final summary from the recorded steps. -/
theorem step_failure_recorded_and_halts
    (oracle : ExecutionContext → Except String OrchestratorResult)
    (params : ExecutionOrchestratorInputSchema) (k : Nat) (r : StepExecutionResult)
    (hk : (run oracle params).executed_steps.get? k = some r)
    (hfail : r.status = "failed") :
    (∃ e, r.result_summary = failedSummary e) ∧
    r.step_index = k ∧
    (run oracle params).executed_steps.length = k + 1 ∧
    (∀ j r', j < k → (run oracle params).executed_steps.get? j = some r' →
      r'.status = "completed") ∧
    (run oracle params).success = false ∧
    (run oracle params).final_summary =
      generateExecutionSummary params.plan (run oracle params).executed_steps false := by
  obtain ⟨hidx, hst, hfailc, hfin⟩ := runSteps_get_spec oracle params.plan.alert
    params.plan.context params.plan.steps 0 params.plan.accumulated_knowledge k r hk
  obtain ⟨hlen, hsucc, htool, he⟩ := hfailc hfail
  refine ⟨he, by omega, hlen.symm, ?_, hsucc, ?_⟩
  · intro j r' hj hget
    obtain ⟨_, hst', hfailc', _⟩ := runSteps_get_spec oracle params.plan.alert
      params.plan.context params.plan.steps 0 params.plan.accumulated_knowledge j r' hget
    rcases hst' with hc | hf
    · exact hc
    · obtain ⟨hlen', _, _, _⟩ := hfailc' hf
      omega
  · show generateExecutionSummary params.plan
      (runSteps oracle params.plan.alert params.plan.context params.plan.steps 0
        params.plan.accumulated_knowledge).executed
      (runSteps oracle params.plan.alert params.plan.context params.plan.steps 0
        params.plan.accumulated_knowledge).success
      = generateExecutionSummary params.plan
      (runSteps oracle params.plan.alert params.plan.context params.plan.steps 0
        params.plan.accumulated_knowledge).executed false
    rw [hsucc]

/-- C6 (witness): the theorem applied to a 3-step plan whose second step
raises "boom": exactly two results are recorded. -/
theorem step_failure_recorded_and_halts_witness :
    (run Fixtures.oracleFail1 Fixtures.params0).executed_steps.length = 1 + 1 :=
  (step_failure_recorded_and_halts Fixtures.oracleFail1 Fixtures.params0 1
    (failedResult 1 { description := "s2" } "boom") (by decide) (by decide)).2.2.1

/-- C7: if the step recorded at index k of a run used the
`final_answer` capability, the run stops after it: it is the last
recorded step, and every recorded step has index at most k, even when
the plan has more steps. -/
theorem final_answer_halts_run
    (oracle : ExecutionContext → Except String OrchestratorResult)
    (params : ExecutionOrchestratorInputSchema) (k : Nat) (r : StepExecutionResult)
    (hk : (run oracle params).executed_steps.get? k = some r)
    (hfin : r.tool_used = "final_answer") :
    (run oracle params).executed_steps.length = k + 1 ∧
    ∀ j r', (run oracle params).executed_steps.get? j = some r' → r'.step_index ≤ k := by
  obtain ⟨hidx, _, _, hfinc⟩ := runSteps_get_spec oracle params.plan.alert
    params.plan.context params.plan.steps 0 params.plan.accumulated_knowledge k r hk
  have hlen := hfinc hfin
  refine ⟨hlen.symm, ?_⟩
  intro j r' hget
  obtain ⟨hidx', _, _, _⟩ := runSteps_get_spec oracle params.plan.alert
    params.plan.context params.plan.steps 0 params.plan.accumulated_knowledge j r' hget
  have hj : j < (runSteps oracle params.plan.alert params.plan.context params.plan.steps 0
      params.plan.accumulated_knowledge).executed.length := by
    obtain ⟨hj, _⟩ := List.get?_eq_some.mp hget
    exact hj
  omega

/-- C7 (witness): the theorem applied to a 3-step plan whose first step
already selects `final_answer` (k = 0 < 2): only one result is
recorded. -/
theorem final_answer_halts_run_witness :
    (run Fixtures.oracleFinal Fixtures.params0).executed_steps.length = 0 + 1 :=
  (final_answer_halts_run Fixtures.oracleFinal Fixtures.params0 0
    (completedResult 0 { description := "s1" } "final_answer"
      (summarize_step_result "s1" "done" "final_answer")) rfl rfl).1

/-- C8: accumulated knowledge is append-only during a run: merging
preserves the existing knowledge as a prefix, the loop's accumulated
knowledge extends its starting value as a prefix from any iteration
onwards, and a whole run never shrinks the plan's accumulated
knowledge. -/
theorem accumulated_knowledge_append_only :
    (∀ existing new, ∃ t, merge_contexts existing new = existing ++ t) ∧
    (∀ (oracle : ExecutionContext → Except String OrchestratorResult)
      (alert context : String) (steps : List PlanStepSchema) (i : Nat) (acc : String),
      ∃ t, (runSteps oracle alert context steps i acc).acc = acc ++ t) ∧
    (∀ (oracle : ExecutionContext → Except String OrchestratorResult)
      (params : ExecutionOrchestratorInputSchema),
      (params.plan.accumulated_knowledge).length
        ≤ (run oracle params).accumulated_knowledge.length) := by
  refine ⟨merge_contexts_extends, runSteps_acc_extends, ?_⟩
  intro oracle params
  obtain ⟨t, ht⟩ := runSteps_acc_extends oracle params.plan.alert params.plan.context
    params.plan.steps 0 params.plan.accumulated_knowledge
  have heq : (run oracle params).accumulated_knowledge
      = params.plan.accumulated_knowledge ++ t := ht
  rw [heq, String.length_append]
  omega

end Orchestration

namespace RagService

/-- C10 (amended): every formatted incident's `similarity_score` is
`round(1 - distance, 2)` — 1 minus the cosine distance, rounded to two
decimal places — rather than exactly 1 minus the distance; for distances
in [0, 1] the score lies in [0, 1]. -/
theorem similarity_score_rounded (q : QueryResult) (i : Nat) (inc : SreAgent.Incident)
    (h : (find_similar_alerts q).get? i = some inc) :
    inc.similarity_score = round2 (1 - q.distances.getD i 1) ∧
    (0 ≤ q.distances.getD i 1 → q.distances.getD i 1 ≤ 1 →
      0 ≤ inc.similarity_score ∧ inc.similarity_score ≤ 1) := by
  unfold find_similar_alerts at h
  by_cases hids : q.ids.isEmpty
  · rw [if_pos hids] at h
    simp at h
  · rw [if_neg hids] at h
    rw [List.get?_map, List.get?_enum] at h
    cases hid : q.ids.get? i with
    | none =>
      rw [hid] at h
      simp only [Option.map_none', reduceCtorEq] at h
    | some a =>
      rw [hid] at h
      simp only [Option.map_some', Option.some.injEq] at h
      subst h
      constructor
      · rfl
      · intro h0 h1
        have hx0 : (0 : ℚ) ≤ 1 - q.distances.getD i 1 := by linarith
        have hx1 : 1 - q.distances.getD i 1 ≤ 1 := by linarith
        exact round2_bounds hx0 hx1

/-- C10 (witness): the amended theorem applied to the one-row vector
store response at distance 0.123. -/
theorem similarity_score_rounded_witness :
    (formatIncident Fixtures.q0 0 "inc-1").similarity_score
        = round2 (1 - Fixtures.q0.distances.getD 0 1) ∧
      (0 ≤ (formatIncident Fixtures.q0 0 "inc-1").similarity_score ∧
        (formatIncident Fixtures.q0 0 "inc-1").similarity_score ≤ 1) :=
  ⟨(similarity_score_rounded Fixtures.q0 0 (formatIncident Fixtures.q0 0 "inc-1") rfl).1,
    (similarity_score_rounded Fixtures.q0 0 (formatIncident Fixtures.q0 0 "inc-1") rfl).2
      (by norm_num [Fixtures.q0]) (by norm_num [Fixtures.q0])⟩

/-- C10 (counterexample): at cosine distance 0.123 the stored score is
0.88, which differs from 1 - 0.123 = 0.877: the score is rounded, not
exact. -/
theorem similarity_score_rounding_counterexample :
    (find_similar_alerts Fixtures.q0).map (fun inc => inc.similarity_score)
        = [22 / 25] ∧
      ((22 : ℚ) / 25 ≠ 1 - 123 / 1000) := by
  constructor
  · have h1 : (find_similar_alerts Fixtures.q0).map (fun inc => inc.similarity_score)
        = [round2 (1 - 123 / 1000)] := rfl
    rw [h1]
    have h2 : round2 (1 - 123 / 1000) = 22 / 25 := by
      simp only [round2, roundHalfEven]
      norm_num
    rw [h2]
  · norm_num

end RagService
